import Mathlib

/-!
Verification of the "Deeper Analysis: Data Snooping" notebook
(`src/Deeper Analysis: Data Snooping/data snooping.ipynb`).

The notebook generates a 100-row synthetic table (dates, returns, volume)
from a seeded random number generator, splits it 80/20 into train/test
subsets, runs 5-fold cross-validation of a linear model on the full table,
fits a ridge model (alpha = 1.0) on the training rows and scores it on the
test rows, and applies the Bonferroni correction to 10 p-values drawn
uniformly from [0.01, 0.1).

All computational steps of the notebook are calls into third-party library
routines (numpy, pandas, scikit-learn, statsmodels) whose sources are not
part of the repository; they are modelled here from their documented
behaviour as described by the spec, as executable Lean definitions.
Rationals (`ℚ`) stand in for the floating-point numbers of the source;
dates are encoded as days since 1970-01-01.
-/

namespace DataSnooping

/-- Modelled from the spec: the seeded pseudo-random number generator
(`np.random`).  The actual generator (Mersenne Twister) is modelled as a
linear congruential generator over a 31-bit state; no claim depends on the
particular stream, only on its determinism and on the range of the unit
values it produces. -/
def lcg (s : Nat) : Nat := (1103515245 * s + 12345) % 2147483648

/-- Modelled from the spec: `np.random.seed(seed)` puts the global
generator into a state that is a function of the seed alone. -/
def seedState (seed : Nat) : Nat := lcg (seed + 1)

/-- One pseudo-random draw: a unit value in `[0, 1)` (the new state scaled
into the unit interval) together with the new state. -/
def unitDraw (s : Nat) : ℚ × Nat :=
  ((lcg s : ℚ) / 2147483648, lcg s)

/-- Draw `n` unit values from the stream, threading the generator state. -/
def drawsGo : Nat → Nat → List ℚ × Nat
  | 0, s => ([], s)
  | n + 1, s =>
    ((unitDraw s).1 :: (drawsGo n (unitDraw s).2).1, (drawsGo n (unitDraw s).2).2)

/-- Modelled from the spec: `np.random.randn(n)` — `n` pseudo-random
"standard normal" draws.  The normal distribution itself is not modelled
(no claim depends on it); only the deterministic seeded stream is: each
unit draw is mapped affinely into `[-1, 1)`. -/
def randn (n : Nat) (s : Nat) : List ℚ × Nat :=
  ((drawsGo n s).1.map (fun u => 2 * u - 1), (drawsGo n s).2)

/-- Modelled from the spec: `np.random.uniform(low, high, n)` — `n`
pseudo-random draws from the half-open interval `[low, high)`, as numpy
documents it. -/
def uniformDraws (low high : ℚ) (n : Nat) (s : Nat) : List ℚ × Nat :=
  ((drawsGo n s).1.map (fun u => low + (high - low) * u), (drawsGo n s).2)

/-- Modelled from the spec: the Bonferroni branch of
`statsmodels.stats.multitest.multipletests` — each p-value is multiplied
by the number of tests and the product is clipped at 1. -/
def bonferroni (ps : List ℚ) : List ℚ :=
  ps.map (fun p => min (p * (ps.length : ℚ)) 1)

/-- The synthetic table of the notebook: three columns aligned by index. -/
structure DataFrame where
  dates : List Nat
  returns : List ℚ
  volume : List ℚ

/-- Modelled from the spec: `pd.date_range(start, periods = n)` with daily
frequency — `n` consecutive day numbers starting at `start`. -/
def dateRange (start n : Nat) : List Nat :=
  (List.range n).map (fun i => start + i)

/-- The day number of 2022-01-01 (days since 1970-01-01). -/
def date20220101 : Nat := 18993

/-- The data-generation cell of the notebook: seed the generator, draw the
dates, 100 "returns" draws, then 100 "volume" draws scaled by 100, and
return the table together with the generator state left behind. -/
def generateTable (seed : Nat) : DataFrame × Nat :=
  (⟨dateRange date20220101 100,
    (randn 100 (seedState seed)).1,
    (randn 100 (randn 100 (seedState seed)).2).1.map (fun x => x * 100)⟩,
   (randn 100 (randn 100 (seedState seed)).2).2)

/-- The notebook's table `data`, generated with seed 0. -/
def data : DataFrame := (generateTable 0).1

/-- The global generator state after the data-generation cell; the
p-values of the Bonferroni cell are drawn from this state. -/
def stateAfterGen : Nat := (generateTable 0).2

/-- Modelled from the spec: a seeded Fisher-Yates-style shuffle (the
permutation drawn inside `train_test_split`): at each step the position
`state % length` is chosen, its element is moved to the front, and the
state advances.  `fuel` bounds the recursion by the list length. -/
def shuffleGo : Nat → Nat → List Nat → List Nat
  | 0, _, l => l
  | _ + 1, _, [] => []
  | fuel + 1, s, x :: xs =>
    (x :: xs).getD (s % (x :: xs).length) x ::
      shuffleGo fuel (lcg s)
        ((x :: xs).erase ((x :: xs).getD (s % (x :: xs).length) x))

/-- Shuffle a list, seeding the fuel with its length. -/
def shuffle (s : Nat) (l : List Nat) : List Nat := shuffleGo l.length s l

/-- Modelled from the spec: the size of the test subset chosen by
`train_test_split` for a fractional `test_size` — the ceiling of
`test_size * n`. -/
def nTestOf (n : Nat) (ts : ℚ) : Nat := (⌈ts * (n : ℚ)⌉).toNat

/-- Modelled from the spec: `train_test_split(..., test_size, random_state)`
on `n` rows — a seeded permutation of the row indices `0 .. n-1`, the
first `nTestOf n ts` of which become the test subset and the rest the
training subset.  Returns `(train indices, test indices)`. -/
def trainTestSplitIdx (n : Nat) (ts : ℚ) (seed : Nat) : List Nat × List Nat :=
  ((shuffle (seedState seed) (List.range n)).drop (nTestOf n ts),
   (shuffle (seedState seed) (List.range n)).take (nTestOf n ts))

/-- Select the rows of a table at the given indices (out-of-range indices
default to 0; the notebook never produces any). -/
def selectRows (df : DataFrame) (idx : List Nat) : DataFrame :=
  ⟨idx.map (fun i => df.dates.getD i 0),
   idx.map (fun i => df.returns.getD i 0),
   idx.map (fun i => df.volume.getD i 0)⟩

/-- The full `train_test_split` of the notebook: split the row indices and
select the corresponding rows, giving `(train_data, test_data)`. -/
def train_test_split (df : DataFrame) (ts : ℚ) (seed : Nat) :
    DataFrame × DataFrame :=
  (selectRows df (trainTestSplitIdx df.dates.length ts seed).1,
   selectRows df (trainTestSplitIdx df.dates.length ts seed).2)

/-- The notebook's split indices: `test_size = 0.2`, `random_state = 0`. -/
def splitIdx : List Nat × List Nat :=
  trainTestSplitIdx data.dates.length (1/5) 0

/-- Indices of the training rows. -/
def trainIdx : List Nat := splitIdx.1

/-- Indices of the testing rows. -/
def testIdx : List Nat := splitIdx.2

/-- The notebook's `train_data`. -/
def train_data : DataFrame := (train_test_split data (1/5) 0).1

/-- The notebook's `test_data`. -/
def test_data : DataFrame := (train_test_split data (1/5) 0).2

/-- The notebook's Bonferroni-cell p-values:
`np.random.uniform(0.01, 0.1, 10)` drawn from the global stream as it
stands after the data-generation cell. -/
def p_values : List ℚ := (uniformDraws (1/100) (1/10) 10 stateAfterGen).1

/-- The notebook's `corrected_p_values[1]`: the Bonferroni-adjusted
p-values. -/
def corrected_p_values : List ℚ := bonferroni p_values

/-- Mean of a list of rationals. -/
def meanQ (l : List ℚ) : ℚ := l.sum / (l.length : ℚ)

/-- Modelled from the spec: ordinary least-squares fit of a straight line
`y = slope * x + intercept` to a list of `(x, y)` points
(`LinearRegression`). -/
def linFit (pts : List (ℚ × ℚ)) : ℚ × ℚ :=
  (((pts.map (fun p => (p.1 - meanQ (pts.map Prod.fst)) *
        (p.2 - meanQ (pts.map Prod.snd)))).sum) /
     ((pts.map (fun p => (p.1 - meanQ (pts.map Prod.fst)) ^ 2)).sum),
   meanQ (pts.map Prod.snd) -
     (((pts.map (fun p => (p.1 - meanQ (pts.map Prod.fst)) *
         (p.2 - meanQ (pts.map Prod.snd)))).sum) /
       ((pts.map (fun p => (p.1 - meanQ (pts.map Prod.fst)) ^ 2)).sum)) *
       meanQ (pts.map Prod.fst))

/-- Modelled from the spec: ridge fit of a straight line with penalty
`alpha` on the (centred) slope — `Ridge(alpha)` on one feature. -/
def ridgeFit (alpha : ℚ) (pts : List (ℚ × ℚ)) : ℚ × ℚ :=
  (((pts.map (fun p => (p.1 - meanQ (pts.map Prod.fst)) *
        (p.2 - meanQ (pts.map Prod.snd)))).sum) /
     (((pts.map (fun p => (p.1 - meanQ (pts.map Prod.fst)) ^ 2)).sum) + alpha),
   meanQ (pts.map Prod.snd) -
     (((pts.map (fun p => (p.1 - meanQ (pts.map Prod.fst)) *
         (p.2 - meanQ (pts.map Prod.snd)))).sum) /
       (((pts.map (fun p => (p.1 - meanQ (pts.map Prod.fst)) ^ 2)).sum) + alpha)) *
       meanQ (pts.map Prod.fst))

/-- Prediction of a fitted line `(slope, intercept)` at `x`. -/
def predict (m : ℚ × ℚ) (x : ℚ) : ℚ := m.1 * x + m.2

/-- Modelled from the spec: the coefficient of determination R² used by
scikit-learn's `score`. -/
def r2Score (m : ℚ × ℚ) (pts : List (ℚ × ℚ)) : ℚ :=
  1 - ((pts.map (fun p => (p.2 - predict m p.1) ^ 2)).sum) /
      ((pts.map (fun p => (p.2 - meanQ (pts.map Prod.snd)) ^ 2)).sum)

/-- The `(x, y) = (volume, returns)` points of a table's rows at the given
indices. -/
def pointsAt (df : DataFrame) (idx : List Nat) : List (ℚ × ℚ) :=
  idx.map (fun i => (df.volume.getD i 0, df.returns.getD i 0))

/-- The `(x, y) = (Volume, Returns)` columns of a table, zipped rowwise. -/
def colPoints (df : DataFrame) : List (ℚ × ℚ) := df.volume.zip df.returns

/-- Modelled from the spec: `KFold` fold construction — `k` contiguous
blocks of test indices; the first `n % k` folds get `n / k + 1` indices,
the rest `n / k`.  Arguments: base size `q`, folds left, extras left,
start index. -/
def kFoldGo (q : Nat) : Nat → Nat → Nat → List (List Nat)
  | 0, _, _ => []
  | k + 1, r, start =>
    ((List.range (q + if 0 < r then 1 else 0)).map (fun j => start + j)) ::
      kFoldGo q k (r - 1) (start + (q + if 0 < r then 1 else 0))

/-- The `k` test-index blocks of `KFold(k)` over `n` samples. -/
def kFoldTestIdx (n k : Nat) : List (List Nat) := kFoldGo (n / k) k (n % k) 0

/-- Modelled from the spec: `cross_val_score(model, X, y, cv = k)` — for
each fold, fit the linear model on the rows outside the fold and report
the R² score on the rows of the fold. -/
def crossValScores (df : DataFrame) (k : Nat) : List ℚ :=
  (kFoldTestIdx df.returns.length k).map (fun te =>
    r2Score
      (linFit (pointsAt df
        ((List.range df.returns.length).filter (fun i => !(te.contains i)))))
      (pointsAt df te))

/-- The notebook's `cv_scores` (5 folds over the full table). -/
def cv_scores : List ℚ := crossValScores data 5

/-- The notebook's reported mean cross-validation score. -/
def mean_cv_score : ℚ := meanQ cv_scores

/-- The notebook's `ridge_model`, fitted with `alpha = 1.0` on the
training rows only. -/
def ridge_model : ℚ × ℚ := ridgeFit 1 (colPoints train_data)

/-- The notebook's `ridge_score`, the held-out R² on the testing rows. -/
def ridge_score : ℚ := r2Score ridge_model (colPoints test_data)

/-! ### Helper lemmas -/

theorem lcg_lt (s : Nat) : lcg s < 2147483648 :=
  Nat.mod_lt _ (by norm_num)

theorem unitDraw_nonneg (s : Nat) : 0 ≤ (unitDraw s).1 :=
  div_nonneg (by exact_mod_cast Nat.zero_le _) (by norm_num)

theorem unitDraw_lt_one (s : Nat) : (unitDraw s).1 < 1 := by
  have h : ((lcg s : ℚ)) < 2147483648 := by exact_mod_cast lcg_lt s
  exact (div_lt_one (by norm_num)).mpr h

theorem drawsGo_mem (n : Nat) : ∀ (s : Nat), ∀ u ∈ (drawsGo n s).1,
    0 ≤ u ∧ u < 1 := by
  induction n with
  | zero => intro s u h; simp [drawsGo] at h
  | succ m ih =>
    intro s u h
    simp only [drawsGo, List.mem_cons] at h
    rcases h with h | h
    · subst h; exact ⟨unitDraw_nonneg s, unitDraw_lt_one s⟩
    · exact ih _ _ h

theorem drawsGo_length (n : Nat) : ∀ s, (drawsGo n s).1.length = n := by
  induction n with
  | zero => intro s; rfl
  | succ m ih => intro s; simp [drawsGo, ih]

theorem uniformDraws_length (low high : ℚ) (n s : Nat) :
    (uniformDraws low high n s).1.length = n := by
  simp [uniformDraws, drawsGo_length]

theorem uniformDraws_mem (low high : ℚ) (h : low < high) (n s : Nat) :
    ∀ x ∈ (uniformDraws low high n s).1, low ≤ x ∧ x < high := by
  intro x hx
  simp only [uniformDraws, List.mem_map] at hx
  obtain ⟨u, hu, rfl⟩ := hx
  obtain ⟨h0, h1⟩ := drawsGo_mem n s u hu
  constructor
  · have hge : 0 ≤ (high - low) * u := mul_nonneg (by linarith) h0
    linarith
  · have hlt : (high - low) * u < (high - low) * 1 :=
      mul_lt_mul_of_pos_left h1 (by linarith)
    linarith

theorem p_values_len : p_values.length = 10 :=
  uniformDraws_length (1/100) (1/10) 10 stateAfterGen

theorem p_values_bounds : ∀ x ∈ p_values, 1/100 ≤ x ∧ x < 1/10 :=
  uniformDraws_mem (1/100) (1/10) (by norm_num) 10 stateAfterGen

theorem corrected_len : corrected_p_values.length = 10 := by
  simp [corrected_p_values, bonferroni, p_values_len]

theorem p_values_getD_mem (i : Fin 10) : p_values.getD i.val 0 ∈ p_values := by
  have hi : i.val < p_values.length := by rw [p_values_len]; exact i.isLt
  rw [List.getD_eq_getElem _ _ hi]
  exact List.getElem_mem hi

theorem corrected_getD (i : Fin 10) :
    corrected_p_values.getD i.val 0 = min (p_values.getD i.val 0 * 10) 1 := by
  have h0 : (0 : ℚ) = min ((0 : ℚ) * (p_values.length : ℚ)) 1 := by norm_num
  calc corrected_p_values.getD i.val 0
      = (p_values.map (fun p => min (p * (p_values.length : ℚ)) 1)).getD i.val
          (min ((0 : ℚ) * (p_values.length : ℚ)) 1) := by rw [← h0]; rfl
    _ = min (p_values.getD i.val 0 * (p_values.length : ℚ)) 1 :=
        List.getD_map p_values 0 _
    _ = min (p_values.getD i.val 0 * 10) 1 := by rw [p_values_len]; norm_num

theorem randn_length (n s : Nat) : (randn n s).1.length = n := by
  simp [randn, drawsGo_length]

theorem dates_length : data.dates.length = 100 := by
  show (dateRange date20220101 100).length = 100
  simp [dateRange]

theorem shuffleGo_perm : ∀ (fuel s : Nat) (l : List Nat),
    (shuffleGo fuel s l).Perm l := by
  intro fuel
  induction fuel with
  | zero => intro s l; exact List.Perm.refl l
  | succ m ih =>
    intro s l
    cases l with
    | nil => exact List.Perm.refl []
    | cons x xs =>
      have hlt : s % (x :: xs).length < (x :: xs).length :=
        Nat.mod_lt _ (by simp)
      have hy : (x :: xs).getD (s % (x :: xs).length) x ∈ x :: xs := by
        rw [List.getD_eq_getElem _ _ hlt]
        exact List.getElem_mem hlt
      simp only [shuffleGo]
      exact ((ih (lcg s) _).cons _).trans (List.perm_cons_erase hy).symm

theorem shuffle_perm (s : Nat) (l : List Nat) : (shuffle s l).Perm l :=
  shuffleGo_perm l.length s l

/-- The permutation of row indices drawn by the notebook's split. -/
def perm0 : List Nat := shuffle (seedState 0) (List.range 100)

theorem perm0_length : perm0.length = 100 := by
  have h := (shuffle_perm (seedState 0) (List.range 100)).length_eq
  simpa [perm0] using h

theorem perm0_nodup : perm0.Nodup :=
  (shuffle_perm (seedState 0) (List.range 100)).symm.nodup (List.nodup_range 100)

theorem nTestOf_100 : nTestOf 100 (1/5) = 20 := by
  have h : (1 / 5 : ℚ) * ((100 : Nat) : ℚ) = ((20 : ℤ) : ℚ) := by norm_num
  rw [nTestOf, h, Int.ceil_intCast]
  rfl

theorem trainIdx_eq : trainIdx = perm0.drop 20 := by
  show (trainTestSplitIdx data.dates.length (1/5) 0).1 = perm0.drop 20
  rw [dates_length]
  show (shuffle (seedState 0) (List.range 100)).drop (nTestOf 100 (1/5)) =
    perm0.drop 20
  rw [nTestOf_100]
  rfl

theorem testIdx_eq : testIdx = perm0.take 20 := by
  show (trainTestSplitIdx data.dates.length (1/5) 0).2 = perm0.take 20
  rw [dates_length]
  show (shuffle (seedState 0) (List.range 100)).take (nTestOf 100 (1/5)) =
    perm0.take 20
  rw [nTestOf_100]
  rfl

theorem trainIdx_len : trainIdx.length = 80 := by
  rw [trainIdx_eq, List.length_drop, perm0_length]

theorem testIdx_len : testIdx.length = 20 := by
  rw [testIdx_eq, List.length_take, perm0_length]
  norm_num

theorem trainIdx_disjoint : trainIdx.Disjoint testIdx := by
  rw [trainIdx_eq, testIdx_eq]
  exact fun a ha hb =>
    List.disjoint_take_drop perm0_nodup (le_refl 20) hb ha

theorem kFoldGo_length (q : Nat) :
    ∀ (k r start : Nat), (kFoldGo q k r start).length = k := by
  intro k
  induction k with
  | zero => intro r start; rfl
  | succ m ih => intro r start; simp [kFoldGo, ih]

theorem crossValScores_length (df : DataFrame) (k : Nat) :
    (crossValScores df k).length = k := by
  simp [crossValScores, kFoldTestIdx, kFoldGo_length]

/-! ### Claims -/

/-- Claim C1: for the 100-row synthetic table split with test proportion
0.2, the training and testing index sets are disjoint (no row index
appears in both), their sizes sum to 100, and there are 80 training rows
and 20 testing rows. -/
theorem train_test_split_partition :
    trainIdx.length = 80 ∧ testIdx.length = 20 ∧
    trainIdx.length + testIdx.length = 100 ∧ trainIdx.Disjoint testIdx :=
  ⟨trainIdx_len, testIdx_len, by rw [trainIdx_len, testIdx_len],
    trainIdx_disjoint⟩

/-- Claim C2: the Bonferroni correction of the 10 notebook p-values
returns exactly 10 corrected values, and each corrected value is at least
the corresponding input p-value. -/
theorem bonferroni_length_and_ge :
    corrected_p_values.length = 10 ∧
    ∀ i : Fin 10, p_values.getD i.val 0 ≤ corrected_p_values.getD i.val 0 := by
  refine ⟨corrected_len, fun i => ?_⟩
  rw [corrected_getD i]
  obtain ⟨hlo, hhi⟩ := p_values_bounds _ (p_values_getD_mem i)
  exact le_min (by linarith) (by linarith)

/-- Claim C3: table generation and the seeded train/test split are
deterministic functions of the seed and input — equal seeds give
byte-identical return and volume sequences, and equal seeds and tables
give the same partition. -/
theorem generation_and_split_deterministic (s s' seed seed' : Nat)
    (df df' : DataFrame) (hs : s = s') (hseed : seed = seed')
    (hdf : df = df') :
    (generateTable s).1.returns = (generateTable s').1.returns ∧
    (generateTable s).1.volume = (generateTable s').1.volume ∧
    train_test_split df (1/5) seed = train_test_split df' (1/5) seed' := by
  subst hs; subst hseed; subst hdf
  exact ⟨rfl, rfl, rfl⟩

/-- Witness for C3 at seed 0 and the notebook's table. -/
theorem generation_and_split_deterministic_witness :
    (0 : Nat) = 0 ∧ data = data ∧
    ((generateTable 0).1.returns = (generateTable 0).1.returns ∧
     (generateTable 0).1.volume = (generateTable 0).1.volume ∧
     train_test_split data (1/5) 0 = train_test_split data (1/5) 0) :=
  ⟨rfl, rfl,
    generation_and_split_deterministic 0 0 0 0 data data rfl rfl rfl⟩

/-- Claim C4: cross-validation with 5 folds over the full 100-row table
returns exactly 5 per-fold scores, and the reported mean score is their
sum divided by 5. -/
theorem cross_validation_five_scores :
    cv_scores.length = 5 ∧ mean_cv_score = cv_scores.sum / 5 := by
  have hl : cv_scores.length = 5 := crossValScores_length data 5
  refine ⟨hl, ?_⟩
  rw [mean_cv_score, meanQ, hl]
  norm_num

/-- Claim C5: the synthetic table has three columns of equal length 100,
aligned by index, and its date column is the 100 consecutive daily dates
starting at 2022-01-01 (day number 18993). -/
theorem synthetic_table_shape :
    data.dates.length = 100 ∧ data.returns.length = 100 ∧
    data.volume.length = 100 ∧
    data.dates = (List.range 100).map (fun i => date20220101 + i) := by
  refine ⟨dates_length, ?_, ?_, rfl⟩
  · show (randn 100 (seedState 0)).1.length = 100
    exact randn_length 100 (seedState 0)
  · show ((randn 100 (randn 100 (seedState 0)).2).1.map
      (fun x => x * 100)).length = 100
    simp [randn_length]

/-- Claim C6: the second synthetic dataset is a sequence of exactly 10
p-values, each lying in the interval [0.01, 0.1]. -/
theorem p_values_in_range :
    p_values.length = 10 ∧
    ∀ i : Fin 10, 1/100 ≤ p_values.getD i.val 0 ∧
      p_values.getD i.val 0 ≤ 1/10 := by
  refine ⟨p_values_len, fun i => ?_⟩
  obtain ⟨hlo, hhi⟩ := p_values_bounds _ (p_values_getD_mem i)
  exact ⟨hlo, le_of_lt hhi⟩

/-- Claim C7: the ridge model (alpha = 1.0) is a function of the training
rows only, the reported score is a function of the fitted model and the
testing rows only, and the two row-index sets are disjoint. -/
theorem ridge_train_test_separation (df : DataFrame)
    (htrain : colPoints (selectRows df trainIdx) = colPoints train_data)
    (htest : colPoints (selectRows df testIdx) = colPoints test_data) :
    ridgeFit 1 (colPoints (selectRows df trainIdx)) = ridge_model ∧
    r2Score (ridgeFit 1 (colPoints (selectRows df trainIdx)))
      (colPoints (selectRows df testIdx)) = ridge_score ∧
    trainIdx.Disjoint testIdx := by
  refine ⟨?_, ?_, trainIdx_disjoint⟩
  · rw [htrain]; rfl
  · rw [htrain, htest]; rfl

/-- Witness for C7 at the notebook's own table. -/
theorem ridge_train_test_separation_witness :
    colPoints (selectRows data trainIdx) = colPoints train_data ∧
    (ridgeFit 1 (colPoints (selectRows data trainIdx)) = ridge_model ∧
     r2Score (ridgeFit 1 (colPoints (selectRows data trainIdx)))
       (colPoints (selectRows data testIdx)) = ridge_score ∧
     trainIdx.Disjoint testIdx) :=
  ⟨rfl, ridge_train_test_separation data rfl rfl⟩

/-- Claim C8: for every index of the 10-element p-value input, the
corrected value equals min(1, 10 · p), and every corrected value lies in
[0, 1]. -/
theorem bonferroni_formula :
    ∀ i : Fin 10,
      corrected_p_values.getD i.val 0 = min 1 (10 * p_values.getD i.val 0) ∧
      0 ≤ corrected_p_values.getD i.val 0 ∧
      corrected_p_values.getD i.val 0 ≤ 1 := by
  intro i
  obtain ⟨hlo, hhi⟩ := p_values_bounds _ (p_values_getD_mem i)
  rw [corrected_getD i]
  refine ⟨by rw [min_comm, mul_comm], le_min (by linarith) (by norm_num),
    min_le_right _ _⟩

/-- Claim C9: the Bonferroni correction is order-preserving on the
notebook's p-values — whenever one input p-value is at most another, the
corresponding corrected values compare the same way. -/
theorem bonferroni_monotone (i j : Fin 10)
    (h : p_values.getD i.val 0 ≤ p_values.getD j.val 0) :
    corrected_p_values.getD i.val 0 ≤ corrected_p_values.getD j.val 0 := by
  rw [corrected_getD i, corrected_getD j]
  exact min_le_min (by linarith) (le_refl 1)

/-- Witness for C9 at indices 0 and 0. -/
theorem bonferroni_monotone_witness :
    p_values.getD 0 0 ≤ p_values.getD 0 0 ∧
    corrected_p_values.getD 0 0 ≤ corrected_p_values.getD 0 0 :=
  ⟨le_refl _, bonferroni_monotone (0 : Fin 10) (0 : Fin 10) (le_refl _)⟩

/-- Claim C10: every generated p-value is strictly below the upper
endpoint 0.1 — the sampling interval is the half-open [0.01, 0.1). -/
theorem p_values_lt_upper :
    ∀ i : Fin 10, p_values.getD i.val 0 < 1/10 := by
  intro i
  exact (p_values_bounds _ (p_values_getD_mem i)).2

end DataSnooping
